import Mathlib

/-!
Verification development for the TuckerSync server core.

The Python sources (`common.py`, `server.py`) are shallowly embedded here:
the `SyncCount` relational table becomes a list of rows, the SQL statements
become list functions translated clause by clause, and the request handlers
become pure functions over an explicit database state.  Machine times are
modelled as integers counting seconds.
-/

namespace TuckerSync

/-- A row of the `SyncCount` table:
`SyncCount(syncCount AUTO_INCREMENT, objectClass, createAt DEFAULT NOW(), isCommitted DEFAULT 0)`.
`createAt` is the column name used by the statements in `common.py` and by the
inserts in `test_sync_count.py`; times are seconds on the database clock. -/
structure SCRow where
  syncCount : Nat
  objectClass : String
  createAt : Int
  isCommitted : Bool
deriving Repr, DecidableEq

/-- The `SyncCount` table state. -/
abbrev SCTable := List SCRow

/-- Rows of the table belonging to object class `c`
(`WHERE objectClass = %s`). -/
def rowsOf (t : SCTable) (c : String) : List SCRow :=
  t.filter (fun r => r.objectClass == c)

/-- Uncommitted rows of the table belonging to object class `c`
(`WHERE objectClass = %s AND isCommitted = 0`). -/
def uncommittedOf (t : SCTable) (c : String) : List SCRow :=
  t.filter (fun r => r.objectClass == c && r.isCommitted == false)

/-- SQL `MIN` over a non-empty list (the guard `CASE WHEN COUNT(*)` ensures
the list is non-empty whenever the value is used; `0` is a dummy for `[]`). -/
def sqlMin : List Nat → Nat
  | [] => 0
  | x :: xs => xs.foldl min x

/-- SQL `MAX` over a non-empty list (same convention as `sqlMin`). -/
def sqlMax : List Nat → Nat
  | [] => 0
  | x :: xs => xs.foldl max x

/-- `SyncCount.SELECT_COMMITTED_SC` (common.py): the committed watermark of a
class.  Translation of
`SELECT CASE WHEN COUNT(*) THEN MIN(syncCount) - 1 ELSE (SELECT CASE WHEN
COUNT(*) THEN MAX(syncCount) ELSE 0 END FROM SyncCount WHERE objectClass = %s)
END AS sync_count FROM SyncCount WHERE objectClass = %s AND isCommitted = 0`.
The result is an integer: `MIN(syncCount) - 1` is evaluated in SQL integer
arithmetic. -/
def select_committed_sc (t : SCTable) (c : String) : Int :=
  let unc := uncommittedOf t c
  if unc.length ≠ 0 then
    (sqlMin (unc.map SCRow.syncCount) : Int) - 1
  else
    let all := rowsOf t c
    if all.length ≠ 0 then (sqlMax (all.map SCRow.syncCount) : Int) else 0

/-- The seven-row `Product` fixture of `test_get_committed_sc_1101100`:
`isCommitted` pattern `[1,1,0,1,1,0,0]`, auto-assigned `syncCount` 1..7. -/
def table1101100 : SCTable :=
  [⟨1, "Product", 0, true⟩, ⟨2, "Product", 0, true⟩, ⟨3, "Product", 0, false⟩,
   ⟨4, "Product", 0, true⟩, ⟨5, "Product", 0, true⟩, ⟨6, "Product", 0, false⟩,
   ⟨7, "Product", 0, false⟩]

/-- `SyncCount.DELETE_TRAILING_COMMITTED` (common.py): `DELETE FROM SyncCount
WHERE syncCount < LAST_INSERT_ID() AND objectClass = %s AND isCommitted = 1`.
`lastInsertId` is the connection-local `LAST_INSERT_ID()` value. -/
def delete_trailing_committed (t : SCTable) (lastInsertId : Nat) (c : String) : SCTable :=
  t.filter (fun r =>
    !(decide (r.syncCount < lastInsertId) && r.objectClass == c && r.isCommitted == true))

/-- `SyncCount.UPDATE_SET_IS_COMMITTED` (common.py):
`UPDATE SyncCount SET isCommitted = 1 WHERE syncCount = %s`.
Note the filter is on `syncCount` alone, with no `objectClass` condition. -/
def update_set_is_committed (t : SCTable) (s : Nat) : SCTable :=
  t.map (fun r => if r.syncCount == s then { r with isCommitted := true } else r)

/-- The configured session-expiry window `01:20:00` of
`SyncCount.UPDATE_SET_IS_COMMITTED_EXPIRED`, in seconds (80 minutes). -/
def expiryWindow : Int := 80 * 60

/-- `SyncCount.UPDATE_SET_IS_COMMITTED_EXPIRED` (common.py):
`UPDATE SyncCount SET isCommitted = 1 WHERE objectClass = %s AND isCommitted = 0
AND (createAt < SUBTIME(NOW(),'01:20:00') OR createAt > ADDTIME(NOW(),'01:20:00'))`.
`now` is the database clock `NOW()`. -/
def update_set_is_committed_expired (t : SCTable) (c : String) (now : Int) : SCTable :=
  t.map (fun r =>
    if r.objectClass == c && r.isCommitted == false &&
       (decide (r.createAt < now - expiryWindow) || decide (r.createAt > now + expiryWindow))
    then { r with isCommitted := true } else r)

/-- A row of an object-class table, per `BaseAppModel` (app_model.py) with the
example `Product` class field `name`.  `lastSync` is the sync count at which
the row became visible. -/
structure ObjRow where
  rowid : Nat
  originClientId : Nat
  originClientObjectId : Nat
  lastUpdatedByClientId : Nat
  ownerUserId : Nat
  lastSync : Nat
  deleted : Bool
  name : String
deriving Repr, DecidableEq

/-- Database state threaded through the handlers.  `syncCount` is the
`SyncCount` table; `nextAutoInc` models the table-wide `AUTO_INCREMENT`
sequence of the `syncCount` column (spec §6: `SyncCount(syncCount AUTO, ...)`;
MySQL auto-increment starts at 1 and is per table, shared by all object
classes); `product` is the example `Product` object-class table; `now` is the
database clock. -/
structure DB where
  syncCount : SCTable
  nextAutoInc : Nat
  product : List ObjRow
  now : Int
deriving Repr, DecidableEq

/-- Modelled from the spec: the relational engine's assignment of `syncCount`
for `SyncCount.INSERT` (`INSERT INTO SyncCount (objectClass) VALUES (%s)`).
The table schema (`base_create.sql`) is not among the core sources; per spec §6
the column is `AUTO`: the engine assigns the next value of a single table-wide
auto-increment sequence and exposes it as `LAST_INSERT_ID()`.  `createAt`
defaults to `NOW()` and `isCommitted` to `0`. -/
def insertSyncCount (db : DB) (c : String) : DB × Nat :=
  let s := db.nextAutoInc
  ({ db with
      syncCount := db.syncCount ++ [⟨s, c, db.now, false⟩],
      nextAutoInc := s + 1 },
   s)

/-- `SyncCount.SELECT_SESSION_SC` executed by `set_session_sc` (server.py):
insert the new uncommitted session row, `COMMIT`, delete trailing committed
rows of the same class, `COMMIT`, and return `LAST_INSERT_ID()`.  The two
commits are transaction boundaries; on this sequential model they do not
change the state. -/
def select_session_sc (db : DB) (c : String) : DB × Nat :=
  let (db1, s) := insertSyncCount db c
  let db2 := { db1 with syncCount := delete_trailing_committed db1.syncCount s c }
  (db2, s)

/-- `mark_expired_sessions_committed` (server.py): run
`UPDATE_SET_IS_COMMITTED_EXPIRED` for the handler's object class. -/
def mark_expired_sessions_committed (db : DB) (c : String) : DB :=
  { db with syncCount := update_set_is_committed_expired db.syncCount c db.now }

/-- `mark_session_committed` (server.py): run `UPDATE_SET_IS_COMMITTED` for the
reserved session sync count. -/
def mark_session_committed (db : DB) (s : Nat) : DB :=
  { db with syncCount := update_set_is_committed db.syncCount s }

/-- One engine operation on the `SyncCount` state, used to quantify over the
inter-request interleavings the server can produce: a session reservation
(`set_session_sc`, any class), an expiry reaping (`mark_expired_sessions_committed`,
any class), a commit marking (`mark_session_committed`, any sync count), or the
database clock advancing between requests. -/
inductive EngineOp where
  | reserve (c : String)
  | reap (c : String)
  | commitMark (s : Nat)
  | tick (dt : Int)
deriving Repr

/-- Apply one engine operation to the database state. -/
def applyOp (db : DB) : EngineOp → DB
  | .reserve c => (select_session_sc db c).1
  | .reap c => mark_expired_sessions_committed db c
  | .commitMark s => mark_session_committed db s
  | .tick dt => { db with now := db.now + dt }

/-- Run a list of engine operations from a state. -/
def runOps (db : DB) (ops : List EngineOp) : DB :=
  ops.foldl applyOp db

/-- The database state after `app_setup.py` drop-creates the tables: empty
`SyncCount` table, auto-increment sequence at 1. -/
def initDB : DB := { syncCount := [], nextAutoInc := 1, product := [], now := 0 }

/-- A JSON value, as produced by `json.loads` / consumed by `json.dumps`
(`JSON` wrapper in common.py).  Objects are association lists of key-value
pairs. -/
inductive Json where
  | null
  | bool (b : Bool)
  | num (n : Int)
  | str (s : String)
  | arr (l : List Json)
  | obj (kvs : List (String × Json))
deriving Repr

/-- An HTTP response: werkzeug `Response()` starts with status 200 and empty
data; handlers only ever call `set_data`, so every protocol response keeps
status 200. -/
structure HttpResponse where
  status : Nat
  data : String
deriving Repr, DecidableEq

/-- `'\x7b"error":<code>\x7d'` — the error response bodies of
`APIErrorResponse` (common.py) are built as `'{"%s":%s}' % (JSONKey.ERROR, code)`. -/
def jsonErrorBody (code : Nat) : String :=
  "\x7b\"error\":" ++ toString code ++ "\x7d"

/-- The API error response constants of common.py (`APIErrorResponse`). -/
def SUCCESS_RESPONSE : String := jsonErrorBody 0

def INTERNAL_SERVER_ERROR : String := jsonErrorBody 1

def MALFORMED_REQUEST : String := jsonErrorBody 2

def INVALID_KEY : String := jsonErrorBody 3

def INVALID_EMAIL : String := jsonErrorBody 4

def INVALID_PASSWORD : String := jsonErrorBody 5

def AUTH_FAIL : String := jsonErrorBody 6

def INVALID_JSON_OBJECT : String := jsonErrorBody 7

/-- `ResponseBody` (common.py lines 265-269): a schematics model whose declared
fields are exactly `error` (IntType, default 0) and `objects` (BaseType,
`serialize_when_none=False`).  There is no declared `committedSyncCount`
field: an attribute of that name assigned on an instance (as `set_committed_sc`
in server.py does) is a plain Python attribute outside the model's fields. -/
structure ResponseBody where
  error : Int := 0
  objects : Option Json := none

/-- `Model.to_primitive` for `ResponseBody`: serializes the declared fields
only — `error` always, `objects` only when not `None`.  Attributes outside the
declared fields are not serialized. -/
def ResponseBody.to_primitive (rb : ResponseBody) : List (String × Json) :=
  [("error", Json.num rb.error)] ++
    (match rb.objects with
     | none => []
     | some o => [("objects", o)])

/-- The data packed by `pack_response` for a response body with `error = 0`
and `objects = []` (`ResponseBody.to_primitive` dumped with compact
separators; an undeclared `committedSyncCount` attribute, as assigned by
`set_committed_sc`, is outside the declared fields and not serialized). -/
def PACKED_EMPTY_SUCCESS : String := "\x7b\"error\":0,\"objects\":[]\x7d"

/-- The classes defined in app_model.py that the name-lookup loop of
`set_object_class` (server.py lines 344-350: no underscore in the name, and
defined in the `app_model` module) can find, each paired with whether it is a
subclass of the `BaseAppModel` that server.py imports.  server.py line 39
imports `BaseAppModel` from `base_model`, but app_model.py line 32 defines its
own `BaseAppModel`, and `Setting` and `Product` subclass that one — so
`issubclass(obj_cls, BaseAppModel)` is `False` for every entry. -/
def appModelClasses : List (String × Bool) :=
  [("BaseAppModel", false), ("Product", false), ("Setting", false)]

/-- Result of `set_object_class` (server.py lines 335-369): either the object
class is set on the holder, or `MALFORMED_REQUEST` is set on the response. -/
inductive SetObjectClassResult where
  | ok (name : String)
  | malformed
deriving Repr, DecidableEq

/-- `set_object_class` (server.py): look the requested name up among the
app_model classes; answer `MALFORMED_REQUEST` when absent; then
`assert issubclass(obj_cls, BaseAppModel)` — the `AssertionError` is caught
and also answered with `MALFORMED_REQUEST`.  Because the imported
`BaseAppModel` (base_model.py) differs from the one app_model's classes
extend, the assert fails for every class in this source and the `ok` branch
is unreachable. -/
def set_object_class (objClassName : String) : SetObjectClassResult :=
  match appModelClasses.find? (fun p => p.1 == objClassName) with
  | none => .malformed
  | some p => if p.2 then .ok p.1 else .malformed

/-- `sync_up` (server.py lines 696-728), after `set_auth_user`,
`set_request_body` and `set_auth_client` have succeeded (those steps read the
`User`/`Client` tables and at most insert a `Client` row; none of them touches
`SyncCount` or any object-class table).  The handler then runs
`set_object_class`, which fails with `MALFORMED_REQUEST` for every class in
this source (the issubclass assert against base_model's `BaseAppModel`), so
no session is ever reserved and the uploaded `objects` are never read.  The
`ok` branch embeds the remaining steps — reap, reserve, mark committed, read
the watermark into an undeclared attribute that `pack_response` does not
serialize — but is unreachable.  Returns the final state and response data. -/
def sync_up (db : DB) (c : String) (objects : List ObjRow) : DB × String :=
  let _ := objects
  match set_object_class c with
  | .malformed => (db, MALFORMED_REQUEST)
  | .ok cname =>
    let db1 := mark_expired_sessions_committed db cname
    let p := select_session_sc db1 cname
    let db3 := mark_session_committed p.1 p.2
    let _watermark := select_committed_sc db3.syncCount cname
    (db3, PACKED_EMPTY_SUCCESS)

/-- `sync_down` (server.py lines 673-693), after `set_auth_user` and
`set_request_body` have succeeded.  The handler then runs
`set_object_class`, which fails with `MALFORMED_REQUEST` for every class in
this source, so `set_auth_client` and the response packing are never reached;
the request's `lastSync` is never read, no statement is executed against the
object-class table, and `set_committed_sc` is never called (the unreachable
`ok` branch would pack `objects = []` with no `committedSyncCount` key).
Returns the final state and response data. -/
def sync_down (db : DB) (c : String) (lastSync : Int) : DB × String :=
  let _ := lastSync
  match set_object_class c with
  | .malformed => (db, MALFORMED_REQUEST)
  | .ok _ => (db, PACKED_EMPTY_SUCCESS)

/-- Following the spec's words (§4.5 syncDown): the rows of the object class
owned by the authenticated user with
`requestLastSync < lastSync ≤ committedSyncCount(C)`.  Stated over the
`Product` table of the database state. -/
def specSyncDownObjects (db : DB) (c : String) (userId : Nat)
    (requestLastSync : Int) : List ObjRow :=
  db.product.filter (fun r =>
    r.ownerUserId == userId &&
    decide (requestLastSync < (r.lastSync : Int)) &&
    decide ((r.lastSync : Int) ≤ select_committed_sc db.syncCount c))

/-- `USER_PASSWORD_MIN_LEN` from config-template.py: the minimum user-password
length enforced by `User.password = StringType(min_length=USER_PASSWORD_MIN_LEN)`
(common.py). -/
def USER_PASSWORD_MIN_LEN : Nat := 14

/-- A row of the `User` table as read by `UserClient.SELECT_BY_EMAIL`
(`password` is the stored verifier; clients joined rows are irrelevant to the
authentication decision and omitted). -/
structure UserRow where
  rowid : Nat
  email : String
  password : String
deriving Repr, DecidableEq

/-- `SELECT ... FROM User ... WHERE u.email = %s`: the user rows matching an
email. -/
def usersByEmail (users : List UserRow) (e : String) : List UserRow :=
  users.filter (fun u => u.email == e)

/-- Result of `set_auth_user` (server.py lines 425-490): either a response is
set on the holder (authentication failed) or the authenticated user is set. -/
inductive AuthResult where
  | failResponse (resp : HttpResponse)
  | ok (user : UserRow)
deriving Repr, DecidableEq

/-- `set_auth_user` (server.py): validate the query credentials against the
`UserClient` model (email required and well-formed per the schematics
`EmailType`, password required with `min_length = USER_PASSWORD_MIN_LEN`),
look the user up by email, and verify the password against the stored
verifier.  `emailWellFormed` abstracts the schematics `EmailType` regex and
`verify` the passlib `CryptContext.verify`; both are external library
functions.  Every failure sets `APIErrorResponse.AUTH_FAIL` on the response
(the SQL-error path, which sets `INTERNAL_SERVER_ERROR`, is not modelled: it
is not an authentication failure). -/
def set_auth_user (emailWellFormed : String → Bool) (verify : String → String → Bool)
    (users : List UserRow) (email password : Option String) : AuthResult :=
  match email, password with
  | some e, some p =>
    if !(emailWellFormed e) || decide (p.length < USER_PASSWORD_MIN_LEN) then
      .failResponse ⟨200, AUTH_FAIL⟩
    else
      match usersByEmail users e with
      | [] => .failResponse ⟨200, AUTH_FAIL⟩
      | u :: _ =>
        if !(verify p u.password) then .failResponse ⟨200, AUTH_FAIL⟩
        else .ok u
  | _, _ => .failResponse ⟨200, AUTH_FAIL⟩

/-- The field names carrying validation errors when `User.validate()` raises
(`e.messages` keys): `password` when the password is shorter than
`USER_PASSWORD_MIN_LEN`, `email` when the email is not well-formed. -/
def userValidationMessages (emailOk : Bool) (passwordLen : Nat) : List String :=
  (if decide (passwordLen < USER_PASSWORD_MIN_LEN) then ["password"] else []) ++
    (if !emailOk then ["email"] else [])

/-- Outcome of the credential-validation prefix of `account_open`
(server.py lines 731-757): either an error response is set, or the handler
proceeds to hash the password and insert the `User` + `Client` rows. -/
inductive AccountOpenOutcome where
  | response (r : HttpResponse)
  | proceedToHashAndInsert
deriving Repr, DecidableEq

/-- The credential-validation prefix of `account_open` (server.py): build a
`User` from the query params and validate it; on a `ValidationError` answer
`INVALID_PASSWORD` if the messages name `password`, else `INVALID_EMAIL` if
they name `email`, else `INTERNAL_SERVER_ERROR`; otherwise continue to
password hashing and insertion. -/
def account_open_validate (emailOk : Bool) (password : String) : AccountOpenOutcome :=
  let msgs := userValidationMessages emailOk password.length
  if msgs.isEmpty then .proceedToHashAndInsert
  else if msgs.contains "password" then .response ⟨200, INVALID_PASSWORD⟩
  else if msgs.contains "email" then .response ⟨200, INVALID_EMAIL⟩
  else .response ⟨200, INTERNAL_SERVER_ERROR⟩

/-- `get_json_object` (server.py lines 271-301): check `Content-Type`, parse
the body (`parsed = none` models a `JSON.loads` exception), and require the
parsed value to be a JSON object.  Returns the object, if any, and the
response data (unchanged from `respData` on success). -/
def get_json_object (contentTypeIsJson : Bool) (parsed : Option Json)
    (respData : String) : Option (List (String × Json)) × String :=
  if !contentTypeIsJson then (none, MALFORMED_REQUEST)
  else
    match parsed with
    | none => (none, INVALID_JSON_OBJECT)
    | some (Json.obj kvs) => (some kvs, respData)
    | some _ => (none, INVALID_JSON_OBJECT)

/-- `set_request_body` (server.py lines 304-332): get the JSON object; the
guard `if not jo: return` treats both `None` and the empty dict as false, so
an empty JSON object makes the handler return with the response data
unchanged.  Otherwise convert to the request-body model (strict keys) and
validate, answering `INVALID_JSON_OBJECT` on either failure (`convert`
models creation plus validation). -/
def set_request_body {α : Type} (contentTypeIsJson : Bool) (parsed : Option Json)
    (convert : List (String × Json) → Option α) (respData : String) :
    Option α × String :=
  match get_json_object contentTypeIsJson parsed respData with
  | (none, d) => (none, d)
  | (some jo, d) =>
    if jo.isEmpty then (none, d)
    else
      match convert jo with
      | none => (none, INVALID_JSON_OBJECT)
      | some b => (some b, d)

/-- The fields of `BaseDataDownRequestBody` / `SyncDownRequestBody`
(common.py): `objectClass`, `clientUUID`, `lastSync`, all required. -/
structure BaseDataDownFields where
  objectClass : String
  clientUUID : String
  lastSync : Int
deriving Repr, DecidableEq

/-- Key lookup in a JSON object. -/
def jsonLookup (kvs : List (String × Json)) (k : String) : Option Json :=
  (kvs.find? (fun kv => kv.1 == k)).map Prod.snd

/-- Creation (strict: unknown keys rejected) plus validation (required fields)
of a `BaseDataDownRequestBody` from a JSON object. -/
def parseBaseDataDownBody (kvs : List (String × Json)) : Option BaseDataDownFields :=
  if kvs.any (fun kv => kv.1 != "objectClass" && kv.1 != "clientUUID" && kv.1 != "lastSync") then
    none
  else
    match jsonLookup kvs "objectClass", jsonLookup kvs "clientUUID",
        jsonLookup kvs "lastSync" with
    | some (Json.str oc), some (Json.str cu), some (Json.num ls) => some ⟨oc, cu, ls⟩
    | _, _, _ => none

/-- `base_data_down` (server.py lines 654-670): no authentication; set the
request body, then resolve the object class with `set_object_class` — which
fails with `MALFORMED_REQUEST` for every class in this source (issubclass
assert against base_model's `BaseAppModel`) — and in the unreachable success
case pack `error = 0, objects = []`.  Returns the final response data, which
starts as the empty string (`Response()` default). -/
def base_data_down (contentTypeIsJson : Bool) (parsed : Option Json) : String :=
  match set_request_body contentTypeIsJson parsed parseBaseDataDownBody "" with
  | (none, d) => d
  | (some b, _) =>
    match set_object_class b.objectClass with
    | .malformed => MALFORMED_REQUEST
    | .ok _ => PACKED_EMPTY_SUCCESS

/-- Auto-increment invariant of a database state: the sequence value is at
least 1 (MySQL auto-increment starts at 1) and strictly above every
`syncCount` stored in the table. -/
def dbInv (db : DB) : Prop :=
  1 ≤ db.nextAutoInc ∧ ∀ r ∈ db.syncCount, r.syncCount < db.nextAutoInc

/-- All `syncCount` values in the table are pairwise distinct. -/
def scDistinct (t : SCTable) : Prop :=
  t.Pairwise (fun r1 r2 => r1.syncCount ≠ r2.syncCount)

/-! ### Concrete fixtures -/

/-- The seven-row fixture of `test_mark_expired_sessions_committed`
(test_sync_count.py): `createAt` offsets `-48h, -01:20:01, -01:00:01,
+24:20:01, +01:20:01, +01:00:01` and one row at `NOW()`, all uncommitted. -/
def sevenRowExpiry : SCTable :=
  [⟨1, "Product", -172800, false⟩, ⟨2, "Product", -4801, false⟩,
   ⟨3, "Product", -3601, false⟩, ⟨4, "Product", 87601, false⟩,
   ⟨5, "Product", 4801, false⟩, ⟨6, "Product", 3601, false⟩,
   ⟨7, "Product", 0, false⟩]

/-- A state with one committed and one uncommitted `Product` session below the
next auto-increment value. -/
def dbTwoSessions : DB :=
  { syncCount := [⟨1, "Product", 0, true⟩, ⟨2, "Product", 0, false⟩],
    nextAutoInc := 3,
    product := [],
    now := 0 }

/-- A state holding one committed `Product` session (watermark 1) and one
`Product` row visible at `lastSync = 1`, owned by user 7. -/
def dbOneVisibleRow : DB :=
  { syncCount := [⟨1, "Product", 0, true⟩],
    nextAutoInc := 2,
    product := [⟨1, 1, 1, 1, 7, 1, false, "widget"⟩],
    now := 0 }

/-- An uploaded object for a `syncUp` request: origin pair `(1, 42)`, not yet
present in the `Product` table. -/
def uploadedProduct : ObjRow :=
  ⟨0, 1, 42, 1, 7, 0, false, "new"⟩

/-- A user row whose stored verifier is the hash of `secret78901234`. -/
def aliceRow : UserRow :=
  ⟨1, "alice@example.com", "hash-of-secret78901234"⟩

/-- A stand-in for the schematics `EmailType` well-formedness check used in
witnesses: the string contains an `@`. -/
def emailHasAt (e : String) : Bool :=
  e.data.any (fun ch => ch == '@')

/-- A stand-in for `CryptContext.verify` used in witnesses: the verifier is
`"hash-of-" ++ password`. -/
def tagVerify (p v : String) : Bool :=
  v == "hash-of-" ++ p

/-! ### Helper lemmas -/

theorem foldl_min_le_init (xs : List Nat) (a : Nat) : xs.foldl min a ≤ a := by
  induction xs generalizing a with
  | nil => simp
  | cons x xs ih =>
    simpa using le_trans (ih (min a x)) (min_le_left a x)

theorem foldl_min_le_mem (xs : List Nat) (a : Nat) :
    ∀ x ∈ xs, xs.foldl min a ≤ x := by
  induction xs generalizing a with
  | nil => simp
  | cons y ys ih =>
    intro x hx
    rcases List.mem_cons.mp hx with rfl | hx
    · simpa using le_trans (foldl_min_le_init ys (min a x)) (min_le_right a x)
    · simpa using ih (min a y) x hx

theorem foldl_min_mem (xs : List Nat) (a : Nat) :
    xs.foldl min a = a ∨ xs.foldl min a ∈ xs := by
  induction xs generalizing a with
  | nil => left; rfl
  | cons y ys ih =>
    rcases ih (min a y) with h | h
    · rcases Nat.le_total a y with hay | hya
      · left
        simpa [min_eq_left hay] using h
      · right
        simp only [List.foldl_cons] at *
        rw [h]
        have hmin : min a y = y := min_eq_right hya
        rw [hmin]
        exact List.mem_cons_self y ys
    · right
      simpa using List.mem_cons_of_mem y h

theorem foldl_max_init_le (xs : List Nat) (a : Nat) : a ≤ xs.foldl max a := by
  induction xs generalizing a with
  | nil => simp
  | cons x xs ih =>
    simpa using le_trans (Nat.le_max_left a x) (ih (max a x))

theorem foldl_max_mem_le (xs : List Nat) (a : Nat) :
    ∀ x ∈ xs, x ≤ xs.foldl max a := by
  induction xs generalizing a with
  | nil => simp
  | cons y ys ih =>
    intro x hx
    rcases List.mem_cons.mp hx with rfl | hx
    · simpa using le_trans (Nat.le_max_right a x) (foldl_max_init_le ys (max a x))
    · simpa using ih (max a y) x hx

theorem foldl_max_mem (xs : List Nat) (a : Nat) :
    xs.foldl max a = a ∨ xs.foldl max a ∈ xs := by
  induction xs generalizing a with
  | nil => left; rfl
  | cons y ys ih =>
    rcases ih (max a y) with h | h
    · rcases Nat.le_total y a with hya | hay
      · left
        simpa [max_eq_left hya] using h
      · right
        simp only [List.foldl_cons] at *
        rw [h]
        have hmax : max a y = y := max_eq_right hay
        rw [hmax]
        exact List.mem_cons_self y ys
    · right
      simpa using List.mem_cons_of_mem y h

theorem sqlMin_mem (l : List Nat) (h : l ≠ []) : sqlMin l ∈ l := by
  match l with
  | [] => exact absurd rfl h
  | x :: xs =>
    rcases foldl_min_mem xs x with h1 | h1
    · rw [sqlMin, h1]; exact List.mem_cons_self x xs
    · rw [sqlMin]; exact List.mem_cons_of_mem x h1

theorem sqlMin_le (l : List Nat) : ∀ x ∈ l, sqlMin l ≤ x := by
  match l with
  | [] => simp
  | y :: xs =>
    intro x hx
    rcases List.mem_cons.mp hx with rfl | hx
    · exact foldl_min_le_init xs x
    · exact foldl_min_le_mem xs y x hx

theorem sqlMax_mem (l : List Nat) (h : l ≠ []) : sqlMax l ∈ l := by
  match l with
  | [] => exact absurd rfl h
  | x :: xs =>
    rcases foldl_max_mem xs x with h1 | h1
    · rw [sqlMax, h1]; exact List.mem_cons_self x xs
    · rw [sqlMax]; exact List.mem_cons_of_mem x h1

theorem le_sqlMax (l : List Nat) : ∀ x ∈ l, x ≤ sqlMax l := by
  match l with
  | [] => simp
  | y :: xs =>
    intro x hx
    rcases List.mem_cons.mp hx with rfl | hx
    · exact foldl_max_init_le xs x
    · exact foldl_max_mem_le xs y x hx

theorem uncommitted_sub_rows (t : SCTable) (c : String) :
    ∀ r ∈ uncommittedOf t c, r ∈ rowsOf t c := by
  intro r hr
  simp only [uncommittedOf, List.mem_filter, Bool.and_eq_true, beq_iff_eq] at hr
  simp only [rowsOf, List.mem_filter, beq_iff_eq]
  exact ⟨hr.1, hr.2.1⟩

theorem mem_of_mem_uncommitted (t : SCTable) (c : String) :
    ∀ r ∈ uncommittedOf t c, r ∈ t := by
  intro r hr
  exact (List.mem_filter.mp hr).1

theorem mem_of_mem_rows (t : SCTable) (c : String) :
    ∀ r ∈ rowsOf t c, r ∈ t := by
  intro r hr
  exact (List.mem_filter.mp hr).1

/-! ### Claims -/

/-- **C1.** For every object class and every `SyncCount` table state, the
committed-watermark query `SELECT_COMMITTED_SC` returns: the minimum
`syncCount` among uncommitted sessions of the class minus 1 when at least one
uncommitted session exists; otherwise the maximum `syncCount` among all
sessions of the class; otherwise 0 when the class has no rows.  In particular
for seven `Product` rows with `syncCount` 1..7 and `isCommitted` pattern
`[1,1,0,1,1,0,0]` the result is 2. -/
theorem committed_watermark_rule :
    (∀ (t : SCTable) (c : String),
      (uncommittedOf t c ≠ [] →
        ∃ r, r ∈ uncommittedOf t c ∧
          select_committed_sc t c = (r.syncCount : Int) - 1 ∧
          ∀ q ∈ uncommittedOf t c, r.syncCount ≤ q.syncCount) ∧
      (uncommittedOf t c = [] → rowsOf t c ≠ [] →
        ∃ r, r ∈ rowsOf t c ∧
          select_committed_sc t c = (r.syncCount : Int) ∧
          ∀ q ∈ rowsOf t c, q.syncCount ≤ r.syncCount) ∧
      (rowsOf t c = [] → select_committed_sc t c = 0)) ∧
    select_committed_sc table1101100 "Product" = 2 := by
  constructor
  · intro t c
    refine ⟨?_, ?_, ?_⟩
    · intro hne
      have hlen : (uncommittedOf t c).length ≠ 0 := by
        simpa [List.length_eq_zero] using hne
      have hmaplen : ((uncommittedOf t c).map SCRow.syncCount) ≠ [] := by
        simpa [List.length_eq_zero] using hlen
      have hmem := sqlMin_mem _ hmaplen
      rcases List.mem_map.mp hmem with ⟨r, hr, heq⟩
      refine ⟨r, hr, ?_, ?_⟩
      · rw [select_committed_sc]
        simp only []
        rw [if_pos hlen, heq]
      · intro q hq
        have hle := sqlMin_le ((uncommittedOf t c).map SCRow.syncCount)
          q.syncCount (List.mem_map_of_mem SCRow.syncCount hq)
        rw [heq]
        exact hle
    · intro hemp hne
      have hlen0 : (uncommittedOf t c).length = 0 := by simp [hemp]
      have hlen : (rowsOf t c).length ≠ 0 := by
        simpa [List.length_eq_zero] using hne
      have hmaplen : ((rowsOf t c).map SCRow.syncCount) ≠ [] := by
        simpa [List.length_eq_zero] using hlen
      have hmem := sqlMax_mem _ hmaplen
      rcases List.mem_map.mp hmem with ⟨r, hr, heq⟩
      refine ⟨r, hr, ?_, ?_⟩
      · rw [select_committed_sc]
        simp only []
        rw [if_neg (by simp [hlen0]), if_pos hlen, heq]
      · intro q hq
        have hle := le_sqlMax ((rowsOf t c).map SCRow.syncCount)
          q.syncCount (List.mem_map_of_mem SCRow.syncCount hq)
        rw [heq]
        exact hle
    · intro hrows
      have hunc : uncommittedOf t c = [] := by
        rw [List.eq_nil_iff_forall_not_mem]
        intro r hr
        have := uncommitted_sub_rows t c r hr
        rw [hrows] at this
        exact List.not_mem_nil r this
      rw [select_committed_sc]
      simp only []
      rw [if_neg (by simp [hunc]), if_neg (by simp [hrows])]
  · decide

/-- Witness for C1: the first case of the rule applied to the seven-row
fixture, whose uncommitted sessions are those with `syncCount` 3, 6, 7. -/
theorem committed_watermark_rule_witness :
    uncommittedOf table1101100 "Product" ≠ [] ∧
    ∃ r, r ∈ uncommittedOf table1101100 "Product" ∧
      select_committed_sc table1101100 "Product" = (r.syncCount : Int) - 1 ∧
      ∀ q ∈ uncommittedOf table1101100 "Product", r.syncCount ≤ q.syncCount :=
  ⟨by decide, (committed_watermark_rule.1 table1101100 "Product").1 (by decide)⟩

/-- **C4.** After the trailing-cleanup step of a session reservation that was
assigned `sessionSyncCount = s` for class `c`, a row is in the table iff it
was there before (or is the new session row) and is not a committed row of `c`
below `s`; in particular no row with `syncCount < s ∧ isCommitted = 1 ∧
objectClass = c` remains, while uncommitted rows of `c` below `s` and rows of
other classes survive; the surviving rows keep their order and multiplicity
(the result is a sublist of the pre-cleanup table). -/
theorem trailing_cleanup_rule :
    ∀ (db : DB) (c : String),
      (∀ r, r ∈ (select_session_sc db c).1.syncCount ↔
        ((r ∈ db.syncCount ∨ r = ⟨(select_session_sc db c).2, c, db.now, false⟩) ∧
         ¬(r.syncCount < (select_session_sc db c).2 ∧ r.isCommitted = true ∧
            r.objectClass = c))) ∧
      List.Sublist (select_session_sc db c).1.syncCount
        (db.syncCount ++ [⟨(select_session_sc db c).2, c, db.now, false⟩]) := by
  intro db c
  constructor
  · intro r
    simp only [select_session_sc, insertSyncCount, delete_trailing_committed]
    simp only [List.mem_filter, List.mem_append, List.mem_singleton,
      Bool.not_eq_true', Bool.and_eq_false_iff, decide_eq_false_iff_not,
      beq_eq_false_iff_ne, ne_eq, Bool.not_eq_true]
    constructor
    · rintro ⟨hmem, hcond⟩
      refine ⟨hmem, ?_⟩
      rintro ⟨h1, h2, h3⟩
      rcases hcond with (h | h) | h
      · exact h h1
      · exact h h3
      · rw [h] at h2
        exact Bool.false_ne_true h2
    · rintro ⟨hmem, hcond⟩
      refine ⟨hmem, ?_⟩
      by_cases h1 : r.syncCount < db.nextAutoInc
      · by_cases h3 : r.objectClass = c
        · right
          by_contra hcom
          exact hcond ⟨h1, by simpa using hcom, h3⟩
        · left; right; exact h3
      · left; left; exact h1
  · simp only [select_session_sc, insertSyncCount]
    exact List.filter_sublist _

/-- Witness for C4: from two `Product` sessions (committed `syncCount = 1`,
uncommitted `syncCount = 2`) a reservation assigns 3 and the cleanup deletes
exactly the committed row. -/
theorem trailing_cleanup_rule_witness :
    (⟨1, "Product", 0, true⟩ : SCRow) ∉
      (select_session_sc dbTwoSessions "Product").1.syncCount ∧
    (⟨2, "Product", 0, false⟩ : SCRow) ∈
      (select_session_sc dbTwoSessions "Product").1.syncCount := by
  constructor
  · intro hmem
    have h := ((trailing_cleanup_rule dbTwoSessions "Product").1
      ⟨1, "Product", 0, true⟩).mp hmem
    exact h.2 (by decide)
  · exact ((trailing_cleanup_rule dbTwoSessions "Product").1
      ⟨2, "Product", 0, false⟩).mpr (by decide)

/-- **C5.** The expiry-reaping update for class `c` flips `isCommitted` from 0
to 1 for exactly those rows whose class is `c`, whose `isCommitted` is 0, and
whose `createAt` lies more than 80 minutes before or after the current time;
every other row, and every other column of the affected rows, is unchanged.
In particular on the seven-row fixture exactly the four rows outside the
±80-minute window flip. -/
theorem expiry_reaping_rule :
    (∀ (t : SCTable) (c : String) (now : Int),
      List.Forall₂ (fun r r2 =>
          r2.syncCount = r.syncCount ∧ r2.objectClass = r.objectClass ∧
          r2.createAt = r.createAt ∧
          ((r.objectClass = c ∧ r.isCommitted = false ∧
              (r.createAt < now - expiryWindow ∨ now + expiryWindow < r.createAt)) →
            r2.isCommitted = true) ∧
          (¬(r.objectClass = c ∧ r.isCommitted = false ∧
              (r.createAt < now - expiryWindow ∨ now + expiryWindow < r.createAt)) →
            r2 = r))
        t (update_set_is_committed_expired t c now)) ∧
    (update_set_is_committed_expired sevenRowExpiry "Product" 0).map SCRow.isCommitted =
      [true, true, false, true, true, false, false] := by
  constructor
  · intro t c now
    rw [update_set_is_committed_expired, List.forall₂_map_right_iff, List.forall₂_same]
    intro r _hr
    by_cases hb : (r.objectClass == c && r.isCommitted == false &&
        (decide (r.createAt < now - expiryWindow) ||
         decide (r.createAt > now + expiryWindow))) = true
    · rw [if_pos hb]
      have hprop : r.objectClass = c ∧ r.isCommitted = false ∧
          (r.createAt < now - expiryWindow ∨ now + expiryWindow < r.createAt) := by
        have h2 := hb
        simp only [Bool.and_eq_true, Bool.or_eq_true, decide_eq_true_eq,
          beq_iff_eq, gt_iff_lt] at h2
        exact ⟨h2.1.1, h2.1.2, h2.2⟩
      exact ⟨rfl, rfl, rfl, fun _ => rfl, fun hcon => absurd hprop hcon⟩
    · rw [if_neg hb]
      have hprop : ¬(r.objectClass = c ∧ r.isCommitted = false ∧
          (r.createAt < now - expiryWindow ∨ now + expiryWindow < r.createAt)) := by
        intro hcon
        apply hb
        simp only [Bool.and_eq_true, Bool.or_eq_true, decide_eq_true_eq,
          beq_iff_eq, gt_iff_lt]
        exact ⟨⟨hcon.1, hcon.2.1⟩, hcon.2.2⟩
      exact ⟨rfl, rfl, rfl, fun hcon => absurd hcon hprop, fun _ => rfl⟩
  · decide

/-- Witness for C5: the rule instantiated on the seven-row fixture at
`now = 0`. -/
theorem expiry_reaping_rule_witness :
    List.Forall₂ (fun r r2 =>
        r2.syncCount = r.syncCount ∧ r2.objectClass = r.objectClass ∧
        r2.createAt = r.createAt ∧
        ((r.objectClass = "Product" ∧ r.isCommitted = false ∧
            (r.createAt < 0 - expiryWindow ∨ 0 + expiryWindow < r.createAt)) →
          r2.isCommitted = true) ∧
        (¬(r.objectClass = "Product" ∧ r.isCommitted = false ∧
            (r.createAt < 0 - expiryWindow ∨ 0 + expiryWindow < r.createAt)) →
          r2 = r))
      sevenRowExpiry (update_set_is_committed_expired sevenRowExpiry "Product" 0) :=
  expiry_reaping_rule.1 sevenRowExpiry "Product" 0

theorem select_session_sc_snd (db : DB) (c : String) :
    (select_session_sc db c).2 = db.nextAutoInc := rfl

theorem select_session_sc_fst_next (db : DB) (c : String) :
    (select_session_sc db c).1.nextAutoInc = db.nextAutoInc + 1 := rfl

theorem applyOp_next_mono (db : DB) (op : EngineOp) :
    db.nextAutoInc ≤ (applyOp db op).nextAutoInc := by
  cases op with
  | reserve c => exact Nat.le_succ _
  | reap c => exact le_refl _
  | commitMark s => exact le_refl _
  | tick dt => exact le_refl _

theorem runOps_next_mono (db : DB) (ops : List EngineOp) :
    db.nextAutoInc ≤ (runOps db ops).nextAutoInc := by
  induction ops generalizing db with
  | nil => exact le_refl _
  | cons op ops ih =>
    exact le_trans (applyOp_next_mono db op) (ih (applyOp db op))

theorem watermark_lt_next (db : DB) (c : String) (hinv : dbInv db) :
    select_committed_sc db.syncCount c < (db.nextAutoInc : Int) := by
  obtain ⟨hone, hlt⟩ := hinv
  rw [select_committed_sc]
  simp only []
  by_cases hunc : (uncommittedOf db.syncCount c).length ≠ 0
  · rw [if_pos hunc]
    have hmaplen : ((uncommittedOf db.syncCount c).map SCRow.syncCount) ≠ [] := by
      simpa [List.length_eq_zero] using hunc
    have hmem := sqlMin_mem _ hmaplen
    rcases List.mem_map.mp hmem with ⟨r, hr, heq⟩
    have hrlt : r.syncCount < db.nextAutoInc :=
      hlt r (mem_of_mem_uncommitted db.syncCount c r hr)
    rw [← heq]
    omega
  · rw [if_neg hunc]
    by_cases hrows : (rowsOf db.syncCount c).length ≠ 0
    · rw [if_pos hrows]
      have hmaplen : ((rowsOf db.syncCount c).map SCRow.syncCount) ≠ [] := by
        simpa [List.length_eq_zero] using hrows
      have hmem := sqlMax_mem _ hmaplen
      rcases List.mem_map.mp hmem with ⟨r, hr, heq⟩
      have hrlt : r.syncCount < db.nextAutoInc :=
        hlt r (mem_of_mem_rows db.syncCount c r hr)
      rw [← heq]
      omega
    · rw [if_neg hrows]
      omega

/-- **C6.** Every `sessionSyncCount` returned by a session reservation is
strictly greater than every `sessionSyncCount` previously returned (for the
same class in particular), across any interleaving of engine operations in
between; and a reservation made after a committed watermark was computed
always receives a sync count strictly above that watermark, so a session
reserved after a watermark was computed can never commit a row with
`syncCount` at or below the watermark. -/
theorem reservation_strictly_increases :
    ∀ (db : DB) (ops : List EngineOp) (c c2 : String),
      dbInv db →
      ((select_session_sc db c).2 <
        (select_session_sc (runOps (select_session_sc db c).1 ops) c2).2 ∧
       select_committed_sc db.syncCount c <
        ((select_session_sc (runOps db ops) c2).2 : Int)) := by
  intro db ops c c2 hinv
  constructor
  · rw [select_session_sc_snd, select_session_sc_snd]
    calc db.nextAutoInc < db.nextAutoInc + 1 := Nat.lt_succ_self _
      _ = (select_session_sc db c).1.nextAutoInc :=
          (select_session_sc_fst_next db c).symm
      _ ≤ (runOps (select_session_sc db c).1 ops).nextAutoInc :=
          runOps_next_mono _ ops
  · rw [select_session_sc_snd]
    calc select_committed_sc db.syncCount c < (db.nextAutoInc : Int) :=
          watermark_lt_next db c hinv
      _ ≤ ((runOps db ops).nextAutoInc : Int) := by
          exact_mod_cast runOps_next_mono db ops

/-- Witness for C6: from the freshly created tables, the first reservation
returns 1, the next returns 2, and the watermark 0 lies below the next
reservation. -/
theorem reservation_strictly_increases_witness :
    dbInv initDB ∧
    ((select_session_sc initDB "Product").2 <
      (select_session_sc (runOps (select_session_sc initDB "Product").1 [])
        "Product").2 ∧
     select_committed_sc initDB.syncCount "Product" <
      ((select_session_sc (runOps initDB []) "Product").2 : Int)) :=
  ⟨⟨by simp [initDB], by simp [initDB]⟩,
   reservation_strictly_increases initDB [] "Product" "Product"
     ⟨by simp [initDB], by simp [initDB]⟩⟩

theorem syncCount_update_expired_eq (c : String) (now : Int) (r0 : SCRow) :
    ((if r0.objectClass == c && r0.isCommitted == false &&
          (decide (r0.createAt < now - expiryWindow) ||
           decide (r0.createAt > now + expiryWindow))
      then { r0 with isCommitted := true } else r0) : SCRow).syncCount =
      r0.syncCount := by
  split <;> rfl

theorem syncCount_update_committed_eq (s : Nat) (r0 : SCRow) :
    ((if r0.syncCount == s then { r0 with isCommitted := true } else r0) :
        SCRow).syncCount = r0.syncCount := by
  split <;> rfl

theorem dbInv_applyOp (db : DB) (op : EngineOp) (h : dbInv db) :
    dbInv (applyOp db op) := by
  obtain ⟨hone, hlt⟩ := h
  cases op with
  | reserve c =>
    refine ⟨le_trans hone (Nat.le_succ _), ?_⟩
    intro r hr
    simp only [applyOp, select_session_sc, insertSyncCount,
      delete_trailing_committed] at hr ⊢
    have hr2 := List.mem_of_mem_filter hr
    rcases List.mem_append.mp hr2 with h1 | h1
    · exact Nat.lt_succ_of_lt (hlt r h1)
    · rw [List.mem_singleton.mp h1]
      exact Nat.lt_succ_self _
  | reap c =>
    refine ⟨hone, ?_⟩
    intro r hr
    simp only [applyOp, mark_expired_sessions_committed,
      update_set_is_committed_expired] at hr ⊢
    rcases List.mem_map.mp hr with ⟨r0, hr0, heq⟩
    have hsc : r.syncCount = r0.syncCount := by
      rw [← heq]
      exact syncCount_update_expired_eq c db.now r0
    rw [hsc]
    exact hlt r0 hr0
  | commitMark s =>
    refine ⟨hone, ?_⟩
    intro r hr
    simp only [applyOp, mark_session_committed, update_set_is_committed] at hr ⊢
    rcases List.mem_map.mp hr with ⟨r0, hr0, heq⟩
    have hsc : r.syncCount = r0.syncCount := by
      rw [← heq]
      exact syncCount_update_committed_eq s r0
    rw [hsc]
    exact hlt r0 hr0
  | tick dt =>
    exact ⟨hone, fun r hr => hlt r hr⟩

theorem scDistinct_applyOp (db : DB) (op : EngineOp) (hinv : dbInv db)
    (hd : scDistinct db.syncCount) : scDistinct (applyOp db op).syncCount := by
  obtain ⟨hone, hlt⟩ := hinv
  cases op with
  | reserve c =>
    simp only [applyOp, select_session_sc, insertSyncCount,
      delete_trailing_committed, scDistinct]
    apply List.Pairwise.sublist (List.filter_sublist _)
    apply List.pairwise_append.mpr
    refine ⟨hd, List.pairwise_singleton _ _, ?_⟩
    intro a ha b hb
    rw [List.mem_singleton.mp hb]
    exact Nat.ne_of_lt (hlt a ha)
  | reap c =>
    simp only [applyOp, mark_expired_sessions_committed,
      update_set_is_committed_expired, scDistinct]
    rw [List.pairwise_map]
    refine List.Pairwise.imp ?_ hd
    intro a b hne
    rw [syncCount_update_expired_eq, syncCount_update_expired_eq]
    exact hne
  | commitMark s =>
    simp only [applyOp, mark_session_committed, update_set_is_committed,
      scDistinct]
    rw [List.pairwise_map]
    refine List.Pairwise.imp ?_ hd
    intro a b hne
    rw [syncCount_update_committed_eq, syncCount_update_committed_eq]
    exact hne
  | tick dt =>
    exact hd

theorem inv_runOps (db : DB) (ops : List EngineOp) (hinv : dbInv db)
    (hd : scDistinct db.syncCount) :
    dbInv (runOps db ops) ∧ scDistinct (runOps db ops).syncCount := by
  induction ops generalizing db with
  | nil => exact ⟨hinv, hd⟩
  | cons op ops ih =>
    have h := ih (applyOp db op) (dbInv_applyOp db op hinv)
      (scDistinct_applyOp db op hinv hd)
    simpa [runOps, List.foldl_cons] using h

theorem countP_syncCount_le_one (t : SCTable) (s : Nat) (hd : scDistinct t) :
    t.countP (fun r => r.syncCount == s) ≤ 1 := by
  induction t with
  | nil => simp
  | cons x xs ih =>
    have hp := List.pairwise_cons.mp hd
    rw [List.countP_cons]
    by_cases hx : x.syncCount = s
    · have h0 : xs.countP (fun r => r.syncCount == s) = 0 := by
        rw [List.countP_eq_zero]
        intro r hr hps
        apply hp.1 r hr
        rw [hx]
        exact (beq_iff_eq.mp hps).symm
      rw [h0, if_pos (by simpa using hx)]
    · have h1 := ih hp.2
      rw [if_neg (by simpa using hx)]
      omega

/-- **C10.** From the freshly created tables, every reachable `SyncCount`
state has pairwise-distinct `syncCount` values — the auto-increment sequence
is table-wide, so two sessions of different classes never share a
`syncCount`, and at most one row matches any given value — and the
mark-session-committed update (which filters on `syncCount` alone) rewrites
exactly the rows whose `syncCount` equals the reserved value and leaves every
other row unchanged. -/
theorem sync_count_globally_unique :
    (∀ ops : List EngineOp,
      scDistinct (runOps initDB ops).syncCount ∧
      (∀ r1 r2, r1 ∈ (runOps initDB ops).syncCount →
        r2 ∈ (runOps initDB ops).syncCount →
        r1.objectClass ≠ r2.objectClass → r1.syncCount ≠ r2.syncCount) ∧
      (∀ s : Nat, (runOps initDB ops).syncCount.countP
        (fun r => r.syncCount == s) ≤ 1)) ∧
    (∀ (t : SCTable) (s : Nat),
      List.Forall₂ (fun r r2 =>
        (r.syncCount = s → r2 = { r with isCommitted := true }) ∧
        (r.syncCount ≠ s → r2 = r)) t (update_set_is_committed t s)) := by
  constructor
  · intro ops
    have hinv0 : dbInv initDB := ⟨by simp [initDB], by simp [initDB]⟩
    have hd0 : scDistinct initDB.syncCount := by simp [scDistinct, initDB]
    have h := inv_runOps initDB ops hinv0 hd0
    refine ⟨h.2, ?_, fun s => countP_syncCount_le_one _ s h.2⟩
    intro r1 r2 h1 h2 hcls
    have hne : r1 ≠ r2 := fun he => hcls (by rw [he])
    have hsym : Symmetric (fun a b : SCRow => a.syncCount ≠ b.syncCount) :=
      fun a b hab => hab.symm
    exact List.Pairwise.forall hsym h.2 h1 h2 hne
  · intro t s
    rw [update_set_is_committed, List.forall₂_map_right_iff, List.forall₂_same]
    intro r _hr
    by_cases h : r.syncCount = s
    · rw [if_pos (by simpa using h)]
      exact ⟨fun _ => rfl, fun hne => absurd h hne⟩
    · rw [if_neg (by simpa using h)]
      exact ⟨fun he => absurd he h, fun _ => rfl⟩

/-- Witness for C10: after reserving one `Product` and one `Setting` session
from fresh tables the sync counts are distinct, and at most one row matches
sync count 1. -/
theorem sync_count_globally_unique_witness :
    scDistinct (runOps initDB
      [EngineOp.reserve "Product", EngineOp.reserve "Setting"]).syncCount ∧
    (runOps initDB
      [EngineOp.reserve "Product", EngineOp.reserve "Setting"]).syncCount.countP
      (fun r => r.syncCount == 1) ≤ 1 :=
  ⟨(sync_count_globally_unique.1 _).1, (sync_count_globally_unique.1 _).2.2 1⟩

/-- **C7.** Every authentication failure — missing credentials, malformed
email, too-short password, email not present in the `User` table, or wrong
password for an existing email — produces the identical protocol response:
body `APIErrorResponse.AUTH_FAIL` (`error = 6`) with HTTP status 200, so no
response distinguishes which cause occurred. -/
theorem auth_failure_indistinguishable :
    ∀ (emailWellFormed : String → Bool) (verify : String → String → Bool)
      (users : List UserRow) (e p : String) (u : UserRow) (rest : List UserRow),
      (set_auth_user emailWellFormed verify users none (some p) =
        .failResponse ⟨200, AUTH_FAIL⟩) ∧
      (set_auth_user emailWellFormed verify users (some e) none =
        .failResponse ⟨200, AUTH_FAIL⟩) ∧
      (emailWellFormed e = false →
        set_auth_user emailWellFormed verify users (some e) (some p) =
          .failResponse ⟨200, AUTH_FAIL⟩) ∧
      (p.length < USER_PASSWORD_MIN_LEN →
        set_auth_user emailWellFormed verify users (some e) (some p) =
          .failResponse ⟨200, AUTH_FAIL⟩) ∧
      (emailWellFormed e = true → USER_PASSWORD_MIN_LEN ≤ p.length →
        usersByEmail users e = [] →
        set_auth_user emailWellFormed verify users (some e) (some p) =
          .failResponse ⟨200, AUTH_FAIL⟩) ∧
      (emailWellFormed e = true → USER_PASSWORD_MIN_LEN ≤ p.length →
        usersByEmail users e = u :: rest → verify p u.password = false →
        set_auth_user emailWellFormed verify users (some e) (some p) =
          .failResponse ⟨200, AUTH_FAIL⟩) := by
  intro emailWellFormed verify users e p u rest
  refine ⟨rfl, rfl, ?_, ?_, ?_, ?_⟩
  · intro h
    simp [set_auth_user, h]
  · intro h
    simp [set_auth_user, h]
  · intro h1 h2 h3
    have hnl : ¬p.length < USER_PASSWORD_MIN_LEN := Nat.not_lt.mpr h2
    simp [set_auth_user, h1, hnl, h3]
  · intro h1 h2 h3 h4
    have hnl : ¬p.length < USER_PASSWORD_MIN_LEN := Nat.not_lt.mpr h2
    simp [set_auth_user, h1, hnl, h3, h4]

/-- Witness for C7: against a single-user table, an unknown email and a wrong
password for the known email both yield exactly the AUTH_FAIL response. -/
theorem auth_failure_indistinguishable_witness :
    (emailHasAt "bob@example.com" = true ∧
     USER_PASSWORD_MIN_LEN ≤ ("secret78901234" : String).length ∧
     usersByEmail [aliceRow] "bob@example.com" = [] ∧
     set_auth_user emailHasAt tagVerify [aliceRow] (some "bob@example.com")
       (some "secret78901234") = .failResponse ⟨200, AUTH_FAIL⟩) ∧
    (usersByEmail [aliceRow] "alice@example.com" = aliceRow :: [] ∧
     tagVerify "wrongpassword1" aliceRow.password = false ∧
     set_auth_user emailHasAt tagVerify [aliceRow] (some "alice@example.com")
       (some "wrongpassword1") = .failResponse ⟨200, AUTH_FAIL⟩) := by
  refine ⟨⟨by decide, by decide, by decide, ?_⟩, by decide, by decide, ?_⟩
  · exact (auth_failure_indistinguishable emailHasAt tagVerify [aliceRow]
      "bob@example.com" "secret78901234" aliceRow []).2.2.2.2.1
      (by decide) (by decide) (by decide)
  · exact (auth_failure_indistinguishable emailHasAt tagVerify [aliceRow]
      "alice@example.com" "wrongpassword1" aliceRow []).2.2.2.2.2
      (by decide) (by decide) (by decide) (by decide)

/-- **C9.** For an `accountOpen` request with a syntactically valid email, a
password of exactly the configured minimum length (14) passes validation and
proceeds to hashing and insertion, while any password at most one character
shorter yields the `INVALID_PASSWORD` (error 5) response. -/
theorem password_min_length_boundary :
    ∀ p : String,
      (p.length = USER_PASSWORD_MIN_LEN →
        account_open_validate true p = .proceedToHashAndInsert) ∧
      (p.length ≤ USER_PASSWORD_MIN_LEN - 1 →
        account_open_validate true p = .response ⟨200, INVALID_PASSWORD⟩) := by
  intro p
  constructor
  · intro h
    have hnl : ¬p.length < USER_PASSWORD_MIN_LEN := by omega
    simp [account_open_validate, userValidationMessages, hnl]
  · intro h
    have hlt : p.length < USER_PASSWORD_MIN_LEN := by
      simp only [USER_PASSWORD_MIN_LEN] at h ⊢
      omega
    simp [account_open_validate, userValidationMessages, hlt]

/-- Witness for C9: the 14-character password `secret78901234` proceeds, the
13-character password `secret7890123` is rejected with error 5. -/
theorem password_min_length_boundary_witness :
    (("secret78901234" : String).length = USER_PASSWORD_MIN_LEN ∧
      account_open_validate true "secret78901234" = .proceedToHashAndInsert) ∧
    (("secret7890123" : String).length ≤ USER_PASSWORD_MIN_LEN - 1 ∧
      account_open_validate true "secret7890123" =
        .response ⟨200, INVALID_PASSWORD⟩) :=
  ⟨⟨by decide, (password_min_length_boundary "secret78901234").1 (by decide)⟩,
   ⟨by decide, (password_min_length_boundary "secret7890123").2 (by decide)⟩⟩

/-- **C2** (refuted by the code): the `syncUp` of one object with origin pair
`(1, 42)` for class `Product` answers `MALFORMED_REQUEST` (`error = 2`):
`set_object_class` fails its issubclass assert for every class, so no session
is reserved, the database — in particular the `Product` table — is left
entirely unchanged, no row carries the uploaded origin pair, and the response
is the constant error body with no `committedSyncCount`. -/
theorem syncUp_drops_objects_and_watermark :
    (sync_up dbOneVisibleRow "Product" [uploadedProduct]).2 =
      MALFORMED_REQUEST ∧
    (sync_up dbOneVisibleRow "Product" [uploadedProduct]).1 =
      dbOneVisibleRow ∧
    (∀ r ∈ (sync_up dbOneVisibleRow "Product" [uploadedProduct]).1.product,
      ¬(r.originClientId = uploadedProduct.originClientId ∧
        r.originClientObjectId = uploadedProduct.originClientObjectId)) :=
  ⟨rfl, rfl, by decide⟩

/-- **C3** (refuted by the code): with one committed `Product` session
(watermark 1) and one row owned by user 7 at `lastSync = 1`, the spec's
`syncDown` answer for `lastSync = 0` is that row, yet the handler answers
`MALFORMED_REQUEST` (`error = 2`) from `set_object_class`, reading nothing
and computing no `committedSyncCount`. -/
theorem syncDown_returns_no_rows_or_watermark :
    specSyncDownObjects dbOneVisibleRow "Product" 7 0 =
      [⟨1, 1, 1, 1, 7, 1, false, "widget"⟩] ∧
    (sync_down dbOneVisibleRow "Product" 0).2 = MALFORMED_REQUEST ∧
    (sync_down dbOneVisibleRow "Product" 0).1 = dbOneVisibleRow :=
  ⟨by decide, rfl, rfl⟩

/-- **C8** (refuted by the code): a dispatched `baseDataDown` request whose
application key passed the allow-list check, with
`Content-Type: application/json` and the empty JSON object as body, produces
an empty response body — not a JSON object at all: the `if not jo` guard in
`set_request_body` treats the successfully parsed empty dict as missing and
returns without setting any response data. -/
theorem empty_body_yields_empty_response :
    base_data_down true (some (Json.obj [])) = "" := rfl

end TuckerSync
